import Mathlib

/-!
# FocusBooster: verification of the Pomodoro session timer and blocking logic

Shallow embedding of the browser productivity extension's core:

* the `PomodoroTimer` state machine (client timer module): `start`, `pause`,
  `resume`, `stop`, the internal `reset`, the 1-second interval callback
  (`tick`), and `completeSession` with its auto-transition policy;
* the synchronous event-emission loop `emitEvent` over registered listeners;
* the site-blocking decision of the background script: `isBlocked` and the
  work-session gate of `handleTabUpdate`.

JavaScript `async` methods are modelled as pure state transformers; the
outcome of a backend call (`apiRequest`) is passed in as an explicit
`backendOk : Bool` (with the fresh session id the server would assign),
since the code branches on success/failure via try/catch.  Each operation
also returns the list of events it emits, each event paired with the
`TimerInfo` snapshot (`getInfo()`) current at emission time.  The
`startTime : Date` field and storage writes are omitted: no claim observes
wall-clock time, and `updateStorage` never changes in-memory timer state.
-/

namespace FocusBooster

/-- Timer states, from `type TimerState = 'idle' | 'running' | 'paused' | 'completed'`. -/
inductive TimerState where
  | idle
  | running
  | paused
  | completed
deriving DecidableEq, Repr

/-- Session types, from `type SessionType = 'work' | 'break' | 'long-break'`.
The source's `'break'` is rendered `shortBreak` (`break` is a Lean keyword). -/
inductive SessionType where
  | work
  | shortBreak
  | longBreak
deriving DecidableEq, Repr

/-- Timer events, from `type TimerEvent = 'start' | 'pause' | 'resume' | 'stop' | 'tick' | 'complete'`. -/
inductive TimerEvent where
  | start
  | pause
  | resume
  | stop
  | tick
  | complete
deriving DecidableEq, Repr

/-- The snapshot published to listeners, from `interface TimerInfo`. -/
structure TimerInfo where
  state : TimerState
  type : SessionType
  duration : Nat
  timeRemaining : Nat
  sessionCount : Nat
  sessionId : Option Nat
deriving DecidableEq, Repr

/-- Per-user settings, from `StorageItems.settings` in the storage module.
Durations are in minutes. -/
structure Settings where
  workDuration : Nat
  breakDuration : Nat
  longBreakDuration : Nat
  sessionsBeforeLongBreak : Nat
  autoStartBreaks : Bool
  autoStartPomodoros : Bool
  notificationSound : String
  notificationVolume : Nat
deriving DecidableEq, Repr

/-- The default settings, from `defaultStorageItems.settings`. -/
def defaultSettings : Settings :=
  { workDuration := 25
    breakDuration := 5
    longBreakDuration := 15
    sessionsBeforeLongBreak := 4
    autoStartBreaks := true
    autoStartPomodoros := false
    notificationSound := "bell"
    notificationVolume := 50 }

/-- In-memory state of the `PomodoroTimer` class: its private fields.
`ticking` models `timerId !== null` (whether the 1-second interval is
installed); `timeRemaining` and `duration` are in seconds. -/
structure PomodoroTimer where
  state : TimerState
  sessionType : SessionType
  timeRemaining : Nat
  duration : Nat
  ticking : Bool
  sessionCount : Nat
  sessionId : Option Nat
deriving DecidableEq, Repr

/-- `getInfo()`: the snapshot of the current timer state. -/
def PomodoroTimer.getInfo (t : PomodoroTimer) : TimerInfo :=
  { state := t.state
    type := t.sessionType
    duration := t.duration
    timeRemaining := t.timeRemaining
    sessionCount := t.sessionCount
    sessionId := t.sessionId }

/-- An emitted event: the event tag paired with the `getInfo()` snapshot
passed to every listener for that emission. -/
abbrev Emitted := TimerEvent × TimerInfo

/-- The `switch (this.sessionType)` in `start()` selecting the configured
duration (in minutes) for a session type. -/
def Settings.durationFor (s : Settings) : SessionType → Nat
  | .work => s.workDuration
  | .shortBreak => s.breakDuration
  | .longBreak => s.longBreakDuration

/-- `start(type?)`.  Guard: returns immediately if `state === 'running'`.
Otherwise it overwrites `sessionType` (when a type is given), loads the
configured duration, sets `timeRemaining = duration` and `state = 'running'`
— all BEFORE the backend call.  Only inside the `try` block, after
`apiRequest` succeeds, does it record the server-assigned `sessionId`,
install the interval (`startTicking`) and emit `'start'`; on failure the
error is logged and the method returns with those earlier writes kept. -/
def PomodoroTimer.start (t : PomodoroTimer) (s : Settings) (ty? : Option SessionType)
    (backendOk : Bool) (newSessionId : Nat) : PomodoroTimer × List Emitted :=
  if t.state = .running then (t, [])
  else
    let ty := ty?.getD t.sessionType
    let dur := s.durationFor ty * 60
    let t1 : PomodoroTimer :=
      { t with sessionType := ty, duration := dur, timeRemaining := dur, state := .running }
    if backendOk then
      let t2 : PomodoroTimer := { t1 with sessionId := some newSessionId, ticking := true }
      (t2, [(.start, t2.getInfo)])
    else
      (t1, [])

/-- `pause()`.  Guard: no-op unless `state === 'running'`; otherwise clears
the interval, sets `state = 'paused'` and emits `'pause'`. -/
def PomodoroTimer.pause (t : PomodoroTimer) : PomodoroTimer × List Emitted :=
  if t.state ≠ .running then (t, [])
  else
    let t1 : PomodoroTimer := { t with ticking := false, state := .paused }
    (t1, [(.pause, t1.getInfo)])

/-- `resume()`.  Guard: no-op unless `state === 'paused'`; otherwise sets
`state = 'running'`, reinstalls the interval and emits `'resume'`. -/
def PomodoroTimer.resume (t : PomodoroTimer) : PomodoroTimer × List Emitted :=
  if t.state ≠ .paused then (t, [])
  else
    let t1 : PomodoroTimer := { t with state := .running, ticking := true }
    (t1, [(.resume, t1.getInfo)])

/-- The private `reset()`: back to `idle`, type `work`, zero times, no
session id.  It does NOT touch `sessionCount` and emits no event. -/
def PomodoroTimer.reset (t : PomodoroTimer) : PomodoroTimer :=
  { t with
    state := .idle
    sessionType := .work
    timeRemaining := 0
    duration := 0
    sessionId := none }

/-- `stop()`.  Guard: no-op when `idle`; otherwise clears the interval,
posts the session-complete call (whose failure is caught and logged, with
no effect on in-memory state), resets, and emits `'stop'`. -/
def PomodoroTimer.stop (t : PomodoroTimer) : PomodoroTimer × List Emitted :=
  if t.state = .idle then (t, [])
  else
    let t1 := PomodoroTimer.reset { t with ticking := false }
    (t1, [(.stop, t1.getInfo)])

/-- The next-session-type selection in `completeSession`, applied to the
ALREADY-incremented session count: after `work`, `long-break` when
`sessionCount % sessionsBeforeLongBreak === 0`, else `break`; after a
break, `work` only when `autoStartPomodoros` is set, else none. -/
def nextSessionType (ty : SessionType) (sessionCount : Nat) (s : Settings) :
    Option SessionType :=
  if ty = .work then
    if sessionCount % s.sessionsBeforeLongBreak = 0 then some .longBreak
    else some .shortBreak
  else if s.autoStartPomodoros then some .work
  else none

/-- `completeSession()`: clears the interval, sets `state = 'completed'`,
posts the completion call (failure caught and logged), increments
`sessionCount` when the finished session was `work`, emits `'complete'`
with the snapshot at that point, then either auto-starts the selected next
type (when its auto-start flag is set) or resets to idle.  `backendOk` and
`newSessionId` are forwarded to the nested `start`. -/
def PomodoroTimer.completeSession (t : PomodoroTimer) (s : Settings)
    (backendOk : Bool) (newSessionId : Nat) : PomodoroTimer × List Emitted :=
  let t1 : PomodoroTimer := { t with ticking := false, state := .completed }
  let t2 : PomodoroTimer :=
    if t1.sessionType = .work then { t1 with sessionCount := t1.sessionCount + 1 } else t1
  let ev : Emitted := (.complete, t2.getInfo)
  match nextSessionType t2.sessionType t2.sessionCount s with
  | some nt =>
    if (nt = .work && s.autoStartPomodoros) || (nt ≠ .work && s.autoStartBreaks) then
      let r := t2.start s (some nt) backendOk newSessionId
      (r.fst, ev :: r.snd)
    else (t2.reset, [ev])
  | none => (t2.reset, [ev])

/-- One firing of the interval callback installed by `startTicking()`:
when `timeRemaining <= 0` it runs `completeSession` and returns;
otherwise it decrements `timeRemaining` by one and emits `'tick'`. -/
def PomodoroTimer.tick (t : PomodoroTimer) (s : Settings)
    (backendOk : Bool) (newSessionId : Nat) : PomodoroTimer × List Emitted :=
  if t.timeRemaining ≤ 0 then t.completeSession s backendOk newSessionId
  else
    let t1 : PomodoroTimer := { t with timeRemaining := t.timeRemaining - 1 }
    (t1, [(.tick, t1.getInfo)])

/-- `n` successive firings of the interval callback, concatenating the
emitted events. -/
def PomodoroTimer.tickN (t : PomodoroTimer) (s : Settings)
    (backendOk : Bool) (newSessionId : Nat) : Nat → PomodoroTimer × List Emitted
  | 0 => (t, [])
  | n + 1 =>
    let r1 := t.tick s backendOk newSessionId
    let r2 := r1.fst.tickN s backendOk newSessionId n
    (r2.fst, r1.snd ++ r2.snd)

/-- A registered listener (`TimerEventListener`).  A JavaScript listener may
throw; this is modelled by returning `Except String Unit`. -/
abbrev TimerEventListener := TimerEvent → TimerInfo → Except String Unit

/-- `emitEvent`: the `for (const listener of this.listeners)` loop calling
`listener(event, info)` on each registered listener in order.  There is no
try/catch around the call, so a thrown exception propagates and ends the
loop.  Returns the delivery log — one `(event, snapshot)` entry per
listener actually invoked, in invocation order — and the propagated
exception, if any. -/
def emitEvent (listeners : List TimerEventListener) (event : TimerEvent)
    (info : TimerInfo) : List Emitted × Option String :=
  match listeners with
  | [] => ([], none)
  | l :: rest =>
    match l event info with
    | .ok _ =>
      let r := emitEvent rest event info
      ((event, info) :: r.fst, r.snd)
    | .error msg => ([(event, info)], some msg)

/-- Whether a listener returns normally (does not throw) when invoked with
this event and snapshot.  Used to state emission-loop properties. -/
def listenerOk (event : TimerEvent) (info : TimerInfo) (f : TimerEventListener) : Bool :=
  match f event info with
  | .ok _ => true
  | .error _ => false

/-- A blocked-site entry, from `StorageItems.blockedSites` / the spec's
`BlockedSite {id, url, isActive}`. -/
structure BlockedSite where
  id : Nat
  url : String
  isActive : Bool
deriving DecidableEq, Repr

/-- Scan a character list for the first `"://"` and return what follows it;
`none` when there is no `"://"`. -/
def dropScheme : List Char → Option (List Char)
  | ':' :: '/' :: '/' :: rest => some rest
  | _ :: rest => dropScheme rest
  | [] => none

/-- Take host characters: everything up to the first `'/'`, `':'`, `'?'` or
`'#'` (path, port, query or fragment delimiter). -/
def hostChars : List Char → List Char
  | [] => []
  | c :: rest =>
    if c = '/' || c = ':' || c = '?' || c = '#' then []
    else c :: hostChars rest

/-- Models the browser's `new URL(u).hostname` on URLs of the shape
`scheme://host[:port][/path...]` (the shape of every stored blocked-site
URL): the characters between `"://"` and the next delimiter.  `none` models
the `TypeError` the constructor throws when the string has no `"://"`. -/
def urlHostname? (u : String) : Option String :=
  (dropScheme u.data).map fun r => String.mk (hostChars r)

/-- JavaScript `haystack.includes(needle)`: `needle` occurs as a contiguous
substring of `haystack`. -/
def hasSubstr (needle : List Char) : List Char → Bool
  | [] => needle.isEmpty
  | c :: rest => needle.isPrefixOf (c :: rest) || hasSubstr needle rest

/-- JavaScript `url.includes(h)` on strings. -/
def strIncludes (haystack needle : String) : Bool :=
  hasSubstr needle.data haystack.data

/-- JavaScript `url.startsWith(p)` on strings. -/
def strStartsWith (u p : String) : Bool :=
  p.data.isPrefixOf u.data

/-- The scan over `blockedSites` inside the background script's
`isBlocked(url)`: for each entry, when `site.isActive` the code evaluates
`url.includes(new URL(site.url).hostname)` — so an active entry whose URL
fails to parse makes the whole check throw (`Except.error`), and the scan
answers `true` at the first active entry whose hostname occurs in the
visited URL. -/
def isBlockedScan (url : String) : List BlockedSite → Except Unit Bool
  | [] => .ok false
  | site :: rest =>
    if site.isActive then
      match urlHostname? site.url with
      | none => .error ()
      | some h => if strIncludes url h then .ok true else isBlockedScan url rest
    else isBlockedScan url rest

/-- `isBlocked(url)` in the background script: extension pages
(`url.startsWith('chrome-extension://')`) are never blocked; otherwise the
block list is scanned. -/
def isBlocked (blockedSites : List BlockedSite) (url : String) : Except Unit Bool :=
  if strStartsWith url "chrome-extension://" then .ok false
  else isBlockedScan url blockedSites

/-- The shape of `currentSession` as read by the background script. -/
structure CurrentSession where
  type : SessionType
  isActive : Bool
deriving DecidableEq, Repr

/-- The background script's `isWorkSessionActive` flag, maintained from the
stored session: `newSession && newSession.isActive` and
`newSession.type === 'work'`. -/
def workSessionActive : Option CurrentSession → Bool
  | some s => s.isActive && s.type = SessionType.work
  | none => false

/-- The blocking decision of `handleTabUpdate` (and `handleNavigation`):
the tab is redirected to the blocked page exactly when
`isWorkSessionActive && isBlocked(tab.url)`; due to `&&` short-circuiting,
`isBlocked` is not evaluated outside a work session. -/
def handleTabUpdateBlocks (isWorkSessionActive : Bool)
    (blockedSites : List BlockedSite) (url : String) : Except Unit Bool :=
  if isWorkSessionActive then isBlocked blockedSites url else .ok false

/-! ## Helper lemmas -/

/-- `start` never touches `sessionCount`. -/
theorem start_fst_sessionCount (t : PomodoroTimer) (s : Settings) (ty? : Option SessionType)
    (ok : Bool) (newId : Nat) :
    (t.start s ty? ok newId).fst.sessionCount = t.sessionCount := by
  by_cases h : t.state = .running <;> cases ok <;> simp [PomodoroTimer.start, h]

/-- `completeSession` adds exactly one to `sessionCount` when the finished
session was `work`, and leaves it alone otherwise. -/
theorem completeSession_fst_sessionCount (t : PomodoroTimer) (s : Settings)
    (ok : Bool) (newId : Nat) :
    (t.completeSession s ok newId).fst.sessionCount =
      t.sessionCount + (if t.sessionType = .work then 1 else 0) := by
  by_cases hw : t.sessionType = .work <;>
    simp only [PomodoroTimer.completeSession, hw, if_pos, if_neg, ite_true, ite_false] <;>
    (split <;> try split) <;>
    simp [start_fst_sessionCount, PomodoroTimer.reset]

/-- The first event `completeSession` emits is `'complete'`, carrying a
snapshot whose state is `'completed'`. -/
theorem completeSession_snd_head (t : PomodoroTimer) (s : Settings)
    (ok : Bool) (newId : Nat) :
    ((t.completeSession s ok newId).snd.head?.map fun e => (e.fst, e.snd.state)) =
      some (TimerEvent.complete, TimerState.completed) := by
  by_cases hw : t.sessionType = .work <;>
    simp only [PomodoroTimer.completeSession, hw, ite_true, ite_false] <;>
    (split <;> try split) <;>
    simp [PomodoroTimer.getInfo]

/-- Ticking at most `timeRemaining` times decrements `timeRemaining` by
exactly the number of ticks, changes nothing else, and emits one event per
tick. -/
theorem tickN_le (s : Settings) (ok : Bool) (newId : Nat) :
    ∀ (n : Nat) (t : PomodoroTimer), n ≤ t.timeRemaining →
      (t.tickN s ok newId n).fst = { t with timeRemaining := t.timeRemaining - n } ∧
      (t.tickN s ok newId n).snd.length = n
  | 0, t, _ => by simp [PomodoroTimer.tickN]
  | n + 1, t, h => by
    have hpos : ¬ t.timeRemaining ≤ 0 := by omega
    have ih := tickN_le s ok newId n { t with timeRemaining := t.timeRemaining - 1 }
      (by simp; omega)
    have harith : t.timeRemaining - 1 - n = t.timeRemaining - (n + 1) := by omega
    simp only [PomodoroTimer.tickN, PomodoroTimer.tick, hpos, ite_false]
    constructor
    · rw [ih.1]
      simp [harith]
    · simp [ih.2]

/-- Peeling one tick off the front of `tickN` (the unfolding equation). -/
theorem tickN_succ_front (s : Settings) (ok : Bool) (newId : Nat) (n : Nat)
    (t : PomodoroTimer) :
    t.tickN s ok newId (n + 1) =
      (((t.tick s ok newId).fst.tickN s ok newId n).fst,
       (t.tick s ok newId).snd ++ ((t.tick s ok newId).fst.tickN s ok newId n).snd) :=
  rfl

/-- Peeling one tick off the back of `tickN`. -/
theorem tickN_succ_back (s : Settings) (ok : Bool) (newId : Nat) :
    ∀ (n : Nat) (t : PomodoroTimer),
      t.tickN s ok newId (n + 1) =
        (((t.tickN s ok newId n).fst.tick s ok newId).fst,
         (t.tickN s ok newId n).snd ++ ((t.tickN s ok newId n).fst.tick s ok newId).snd)
  | 0, t => by simp [PomodoroTimer.tickN]
  | n + 1, t => by
    rw [tickN_succ_front s ok newId (n + 1) t,
      tickN_succ_back s ok newId n (t.tick s ok newId).fst,
      tickN_succ_front s ok newId n t]
    simp [List.append_assoc]

/-- The scan over the block list computes the substring-match disjunction,
provided every active entry's URL has a parsable hostname. -/
theorem isBlockedScan_eq (url : String) :
    ∀ sites : List BlockedSite,
      sites.all (fun site => !site.isActive || (urlHostname? site.url).isSome) = true →
      isBlockedScan url sites =
        .ok (sites.any fun site =>
          site.isActive && strIncludes url ((urlHostname? site.url).getD ""))
  | [], _ => rfl
  | site :: rest, h => by
    simp only [List.all_cons, Bool.and_eq_true, Bool.or_eq_true, Bool.not_eq_true'] at h
    by_cases ha : site.isActive
    · rcases hs : urlHostname? site.url with _ | hostname
      · rcases h.1 with h1 | h1
        · exact absurd ha (by simp [h1])
        · rw [hs] at h1
          exact absurd h1 (by simp)
      · by_cases hi : strIncludes url hostname
        · simp [isBlockedScan, ha, hs, hi]
        · simp [isBlockedScan, ha, hs, hi, isBlockedScan_eq url rest h.2]
    · simp [isBlockedScan, ha, isBlockedScan_eq url rest h.2]

/-! ## Claim theorems -/

/-- C7: for every valid session type, calling `start(type)` from state
`idle` sets both `timeRemaining` and `duration` to the configured duration
in minutes for that type multiplied by 60, and moves the machine to state
`running` (whether or not the backend call succeeds, since those writes
precede it). -/
theorem start_idle_sets_duration (t : PomodoroTimer) (s : Settings) (ty : SessionType)
    (ok : Bool) (newId : Nat) (h : t.state = .idle) :
    (t.start s (some ty) ok newId).fst.timeRemaining = s.durationFor ty * 60 ∧
    (t.start s (some ty) ok newId).fst.duration = s.durationFor ty * 60 ∧
    (t.start s (some ty) ok newId).fst.state = .running := by
  have hne : ¬ t.state = TimerState.running := by rw [h]; exact fun hc => by cases hc
  cases ok <;> simp [PomodoroTimer.start, hne]

/-- Witness for C7: starting a work session from the freshly-reset idle
timer with default settings yields `timeRemaining = duration = 25 * 60`
and state `running`. -/
theorem start_idle_sets_duration_witness :
    (⟨.idle, .work, 0, 0, false, 0, none⟩ : PomodoroTimer).state = .idle ∧
    (((⟨.idle, .work, 0, 0, false, 0, none⟩ : PomodoroTimer).start defaultSettings
        (some .work) true 1).fst.timeRemaining = defaultSettings.durationFor .work * 60 ∧
     ((⟨.idle, .work, 0, 0, false, 0, none⟩ : PomodoroTimer).start defaultSettings
        (some .work) true 1).fst.duration = defaultSettings.durationFor .work * 60 ∧
     ((⟨.idle, .work, 0, 0, false, 0, none⟩ : PomodoroTimer).start defaultSettings
        (some .work) true 1).fst.state = .running) :=
  ⟨rfl, start_idle_sets_duration _ defaultSettings .work true 1 rfl⟩

/-- C8: `pause()` called in any state other than `running` leaves the whole
timer state unchanged and emits nothing, and `resume()` called in any state
other than `paused` leaves the whole timer state unchanged and emits
nothing. -/
theorem pause_resume_guards (t : PomodoroTimer) :
    (t.state ≠ .running → t.pause = (t, [])) ∧
    (t.state ≠ .paused → t.resume = (t, [])) :=
  ⟨fun h => by simp [PomodoroTimer.pause, h],
   fun h => by simp [PomodoroTimer.resume, h]⟩

/-- Witness for C8: `pause()` on an idle timer and `resume()` on a completed
timer are both no-ops. -/
theorem pause_resume_guards_witness :
    (⟨.idle, .work, 0, 0, false, 0, none⟩ : PomodoroTimer).pause =
      ((⟨.idle, .work, 0, 0, false, 0, none⟩ : PomodoroTimer), []) ∧
    (⟨.completed, .work, 0, 1500, false, 2, some 5⟩ : PomodoroTimer).resume =
      ((⟨.completed, .work, 0, 1500, false, 2, some 5⟩ : PomodoroTimer), []) :=
  ⟨(pause_resume_guards _).1 (by decide), (pause_resume_guards _).2 (by decide)⟩

/-- C9 (implicit): `sessionCount` is never decremented or reset by any
operation — `start`, `pause`, `resume`, `stop` and the internal `reset`
leave it unchanged, and it changes only by incrementing by one when a
`work` session completes (directly via `completeSession`, or via the tick
that fires with `timeRemaining` at 0). -/
theorem sessionCount_never_reset (t : PomodoroTimer) (s : Settings)
    (ty? : Option SessionType) (ok : Bool) (newId : Nat) :
    (t.start s ty? ok newId).fst.sessionCount = t.sessionCount ∧
    t.pause.fst.sessionCount = t.sessionCount ∧
    t.resume.fst.sessionCount = t.sessionCount ∧
    t.stop.fst.sessionCount = t.sessionCount ∧
    t.reset.sessionCount = t.sessionCount ∧
    (t.completeSession s ok newId).fst.sessionCount =
      t.sessionCount + (if t.sessionType = .work then 1 else 0) ∧
    (t.tick s ok newId).fst.sessionCount =
      t.sessionCount +
        (if t.timeRemaining = 0 then (if t.sessionType = .work then 1 else 0) else 0) := by
  refine ⟨start_fst_sessionCount t s ty? ok newId, ?_, ?_, ?_, ?_,
    completeSession_fst_sessionCount t s ok newId, ?_⟩
  · by_cases h : t.state = .running <;> simp [PomodoroTimer.pause, h]
  · by_cases h : t.state = .paused <;> simp [PomodoroTimer.resume, h]
  · by_cases h : t.state = .idle <;> simp [PomodoroTimer.stop, PomodoroTimer.reset, h]
  · simp [PomodoroTimer.reset]
  · by_cases h : t.timeRemaining = 0
    · simp [PomodoroTimer.tick, h, completeSession_fst_sessionCount]
    · have h' : ¬ t.timeRemaining ≤ 0 := by omega
      simp [PomodoroTimer.tick, h', h]

/-- C10 (implicit): `start` is guarded only against state `running` — there
it returns immediately with no change and no event — while from `paused` or
`completed` it is not rejected: it begins a fresh session of the requested
type at full configured duration (here shown for a successful backend
call, which also installs the countdown and the fresh session id). -/
theorem start_guard_only_running (t : PomodoroTimer) (s : Settings)
    (ty? : Option SessionType) (ty : SessionType) (ok : Bool) (newId : Nat) :
    (t.state = .running → t.start s ty? ok newId = (t, [])) ∧
    (t.state = .paused ∨ t.state = .completed →
      (t.start s (some ty) true newId).fst =
        { t with
          sessionType := ty
          duration := s.durationFor ty * 60
          timeRemaining := s.durationFor ty * 60
          state := .running
          sessionId := some newId
          ticking := true }) := by
  constructor
  · intro h
    simp [PomodoroTimer.start, h]
  · intro h
    have hne : ¬ t.state = TimerState.running := by
      rcases h with h | h <;> rw [h] <;> exact fun hc => by cases hc
    simp [PomodoroTimer.start, hne]

/-- Witness for C10: from a paused work session with 100 seconds left,
`start('break')` is accepted and yields a fresh running break session at
full duration; and `start` from a running state is a no-op. -/
theorem start_guard_only_running_witness :
    ((⟨.running, .work, 42, 1500, true, 1, some 3⟩ : PomodoroTimer).start defaultSettings
      (some .shortBreak) true 9 = ((⟨.running, .work, 42, 1500, true, 1, some 3⟩ : PomodoroTimer), [])) ∧
    ((⟨.paused, .work, 100, 1500, false, 1, some 3⟩ : PomodoroTimer).start defaultSettings
      (some .shortBreak) true 9).fst =
        { (⟨.paused, .work, 100, 1500, false, 1, some 3⟩ : PomodoroTimer) with
          sessionType := .shortBreak
          duration := defaultSettings.durationFor .shortBreak * 60
          timeRemaining := defaultSettings.durationFor .shortBreak * 60
          state := .running
          sessionId := some 9
          ticking := true } :=
  ⟨(start_guard_only_running _ defaultSettings (some .shortBreak) .shortBreak true 9).1 rfl,
   (start_guard_only_running _ defaultSettings (some .shortBreak) .shortBreak true 9).2
     (Or.inl rfl)⟩

/-- C5: completing a `work` session increments the work-session counter,
and the next session type is `long-break` when the incremented counter is
divisible by `sessionsBeforeLongBreak`, else `break` — observed here
through the auto-started next session (`autoStartBreaks` on, backend call
succeeding): the machine ends running a session of exactly that type. -/
theorem completeSession_work_selects_next (t : PomodoroTimer) (s : Settings) (newId : Nat)
    (hw : t.sessionType = .work) (hb : s.autoStartBreaks = true) :
    (t.completeSession s true newId).fst.sessionCount = t.sessionCount + 1 ∧
    (t.completeSession s true newId).fst.sessionType =
      (if (t.sessionCount + 1) % s.sessionsBeforeLongBreak = 0 then SessionType.longBreak
       else SessionType.shortBreak) ∧
    (t.completeSession s true newId).fst.state = .running := by
  by_cases hmod : (t.sessionCount + 1) % s.sessionsBeforeLongBreak = 0 <;>
    simp [PomodoroTimer.completeSession, nextSessionType, hw, hb, hmod, PomodoroTimer.start]

/-- Witness for C5: with default settings (`sessionsBeforeLongBreak = 4`),
a work session completing with prior counter 2 (the 3rd completion) selects
`break`, and with prior counter 3 (the 4th completion) selects
`long-break`; the counter increments each time. -/
theorem completeSession_work_selects_next_witness :
    (⟨.running, .work, 0, 1500, true, 2, some 9⟩ : PomodoroTimer).sessionType = .work ∧
    defaultSettings.autoStartBreaks = true ∧
    ((⟨.running, .work, 0, 1500, true, 2, some 9⟩ : PomodoroTimer).completeSession
        defaultSettings true 10).fst.sessionCount = 3 ∧
    ((⟨.running, .work, 0, 1500, true, 2, some 9⟩ : PomodoroTimer).completeSession
        defaultSettings true 10).fst.sessionType = .shortBreak ∧
    ((⟨.running, .work, 0, 1500, true, 3, some 11⟩ : PomodoroTimer).completeSession
        defaultSettings true 12).fst.sessionCount = 4 ∧
    ((⟨.running, .work, 0, 1500, true, 3, some 11⟩ : PomodoroTimer).completeSession
        defaultSettings true 12).fst.sessionType = .longBreak := by
  have h3 := completeSession_work_selects_next
    (⟨.running, .work, 0, 1500, true, 2, some 9⟩ : PomodoroTimer) defaultSettings 10 rfl rfl
  have h4 := completeSession_work_selects_next
    (⟨.running, .work, 0, 1500, true, 3, some 11⟩ : PomodoroTimer) defaultSettings 12 rfl rfl
  refine ⟨rfl, rfl, h3.1, ?_, h4.1, ?_⟩
  · rw [h3.2.1]
    decide
  · rw [h4.2.1]
    decide

/-- C6: with `autoStartBreaks = false`, completing a work session leaves the
machine in `idle` (no auto-started break), even though the next-type
computation selects a non-work type (`break` or `long-break`). -/
theorem completeSession_autoStartBreaks_off (t : PomodoroTimer) (s : Settings)
    (ok : Bool) (newId : Nat)
    (hw : t.sessionType = .work) (hb : s.autoStartBreaks = false) :
    (t.completeSession s ok newId).fst.state = .idle ∧
    ∃ nt, nextSessionType .work (t.sessionCount + 1) s = some nt ∧ nt ≠ .work := by
  by_cases hmod : (t.sessionCount + 1) % s.sessionsBeforeLongBreak = 0
  · refine ⟨?_, .longBreak, by simp [nextSessionType, hmod], by decide⟩
    simp [PomodoroTimer.completeSession, nextSessionType, hw, hb, hmod, PomodoroTimer.reset]
  · refine ⟨?_, .shortBreak, by simp [nextSessionType, hmod], by decide⟩
    simp [PomodoroTimer.completeSession, nextSessionType, hw, hb, hmod, PomodoroTimer.reset]

/-- Witness for C6: a completing work session under default settings with
auto-start of breaks disabled ends idle, while the next-type computation
still selects a break type. -/
theorem completeSession_autoStartBreaks_off_witness :
    (⟨.running, .work, 0, 1500, true, 0, some 9⟩ : PomodoroTimer).sessionType = .work ∧
    ({ defaultSettings with autoStartBreaks := false } : Settings).autoStartBreaks = false ∧
    (((⟨.running, .work, 0, 1500, true, 0, some 9⟩ : PomodoroTimer).completeSession
        { defaultSettings with autoStartBreaks := false } true 10).fst.state = .idle ∧
     ∃ nt, nextSessionType .work 1 { defaultSettings with autoStartBreaks := false } = some nt ∧
       nt ≠ .work) :=
  ⟨rfl, rfl, completeSession_autoStartBreaks_off _ _ true 10 rfl rfl⟩

/-- C1 counterexample: from `running` with `timeRemaining = 1`, the tick in
which `timeRemaining` reaches 0 leaves the machine still `running` — it
emits only `'tick'`, and the transition to `completed` does not happen
within that tick (it happens on the next one). -/
theorem tick_same_tick_completion_cex :
    ((⟨.running, .work, 1, 60, true, 0, some 1⟩ : PomodoroTimer).tick
        defaultSettings true 2).fst.timeRemaining = 0 ∧
    ((⟨.running, .work, 1, 60, true, 0, some 1⟩ : PomodoroTimer).tick
        defaultSettings true 2).fst.state = .running ∧
    ¬ ((⟨.running, .work, 1, 60, true, 0, some 1⟩ : PomodoroTimer).tick
        defaultSettings true 2).fst.state = .completed ∧
    (((⟨.running, .work, 1, 60, true, 0, some 1⟩ : PomodoroTimer).tick
        defaultSettings true 2).snd.map Prod.fst) = [.tick] := by
  decide

/-- C1 amended: each tick from `running` with positive `timeRemaining`
decrements it by exactly 1 and never below 0 (ticking `n ≤ timeRemaining`
times decrements by exactly `n`, one emitted event per tick, everything
else unchanged); the transition to `completed` happens on the FOLLOWING
tick — the first one that fires with `timeRemaining` already 0 — which
emits `'complete'` with a snapshot in state `completed`. -/
theorem tick_countdown_amended (t : PomodoroTimer) (s : Settings) (ok : Bool) (newId : Nat)
    (_hr : t.state = .running) :
    (∀ n, n ≤ t.timeRemaining →
      (t.tickN s ok newId n).fst = { t with timeRemaining := t.timeRemaining - n } ∧
      (t.tickN s ok newId n).snd.length = n) ∧
    (((t.tickN s ok newId (t.timeRemaining + 1)).snd.drop t.timeRemaining).head?.map
        fun e => (e.fst, e.snd.state)) = some (TimerEvent.complete, TimerState.completed) := by
  constructor
  · intro n hn
    exact tickN_le s ok newId n t hn
  · have h1 := tickN_le s ok newId t.timeRemaining t (le_refl _)
    have hz : t.timeRemaining - t.timeRemaining = 0 := by omega
    rw [tickN_succ_back s ok newId t.timeRemaining t]
    rw [show ((((t.tickN s ok newId t.timeRemaining).fst.tick s ok newId).fst,
        (t.tickN s ok newId t.timeRemaining).snd ++
          ((t.tickN s ok newId t.timeRemaining).fst.tick s ok newId).snd) :
        PomodoroTimer × List Emitted).snd =
      (t.tickN s ok newId t.timeRemaining).snd ++
        ((t.tickN s ok newId t.timeRemaining).fst.tick s ok newId).snd from rfl]
    rw [List.drop_left' h1.2, h1.1, hz]
    simp only [PomodoroTimer.tick, Nat.le_refl, ite_true, le_refl]
    exact completeSession_snd_head _ s ok newId

/-- Witness for C1 amended: from `running` with 2 seconds left, two ticks
reach `timeRemaining = 0` still running, and the third tick emits
`'complete'` with state `completed`. -/
theorem tick_countdown_amended_witness :
    (⟨.running, .work, 2, 60, true, 0, some 1⟩ : PomodoroTimer).state = .running ∧
    ((⟨.running, .work, 2, 60, true, 0, some 1⟩ : PomodoroTimer).tickN
        defaultSettings true 5 2).fst =
      { (⟨.running, .work, 2, 60, true, 0, some 1⟩ : PomodoroTimer) with timeRemaining := 0 } ∧
    ((((⟨.running, .work, 2, 60, true, 0, some 1⟩ : PomodoroTimer).tickN
        defaultSettings true 5 3).snd.drop 2).head?.map
      fun e => (e.fst, e.snd.state)) = some (TimerEvent.complete, TimerState.completed) := by
  have h := tick_countdown_amended
    (⟨.running, .work, 2, 60, true, 0, some 1⟩ : PomodoroTimer) defaultSettings true 5 rfl
  exact ⟨rfl, (h.1 2 (by decide)).1, h.2⟩

/-- C2 counterexample: with the backend call failing, `start('work')` from
the pristine idle timer does NOT leave the in-memory state what it was —
it commits a partial transition to `running` with the new duration. -/
theorem start_backend_failure_cex :
    ((⟨.idle, .work, 0, 0, false, 0, none⟩ : PomodoroTimer).start defaultSettings
        (some .work) false 1).fst ≠ (⟨.idle, .work, 0, 0, false, 0, none⟩ : PomodoroTimer) ∧
    ((⟨.idle, .work, 0, 0, false, 0, none⟩ : PomodoroTimer).start defaultSettings
        (some .work) false 1).fst.state = .running ∧
    ((⟨.idle, .work, 0, 0, false, 0, none⟩ : PomodoroTimer).start defaultSettings
        (some .work) false 1).fst.timeRemaining = 1500 := by
  decide

/-- C2 amended: if the backend call issued during `start()` fails, the error
is logged and the operation returns without emitting an event, without
starting the countdown and without assigning a session id (`sessionId` and
`ticking` keep their prior values) — but the writes made before the call
stand: the machine is left in `running` with the new session type and
`timeRemaining = duration` set to its full configured duration, not in its
pre-call state. -/
theorem start_backend_failure_amended (t : PomodoroTimer) (s : Settings)
    (ty : SessionType) (newId : Nat) (h : t.state ≠ .running) :
    (t.start s (some ty) false newId).fst =
      { t with
        sessionType := ty
        duration := s.durationFor ty * 60
        timeRemaining := s.durationFor ty * 60
        state := .running } ∧
    (t.start s (some ty) false newId).snd = [] ∧
    (t.start s (some ty) false newId).fst.sessionId = t.sessionId ∧
    (t.start s (some ty) false newId).fst.ticking = t.ticking := by
  simp [PomodoroTimer.start, h]

/-- Witness for C2 amended: concrete failed `start('work')` from idle. -/
theorem start_backend_failure_amended_witness :
    (⟨.idle, .work, 0, 0, false, 3, none⟩ : PomodoroTimer).state ≠ .running ∧
    (((⟨.idle, .work, 0, 0, false, 3, none⟩ : PomodoroTimer).start defaultSettings
        (some .work) false 7).fst =
      { (⟨.idle, .work, 0, 0, false, 3, none⟩ : PomodoroTimer) with
        sessionType := .work
        duration := defaultSettings.durationFor .work * 60
        timeRemaining := defaultSettings.durationFor .work * 60
        state := .running } ∧
     ((⟨.idle, .work, 0, 0, false, 3, none⟩ : PomodoroTimer).start defaultSettings
        (some .work) false 7).snd = [] ∧
     ((⟨.idle, .work, 0, 0, false, 3, none⟩ : PomodoroTimer).start defaultSettings
        (some .work) false 7).fst.sessionId = none ∧
     ((⟨.idle, .work, 0, 0, false, 3, none⟩ : PomodoroTimer).start defaultSettings
        (some .work) false 7).fst.ticking = false) :=
  ⟨by decide, start_backend_failure_amended _ defaultSettings .work 7 (by decide)⟩

/-- When every listener in the list returns normally, the emission loop
invokes them all, in registration order, each with the same snapshot. -/
theorem emitEvent_all_ok (event : TimerEvent) (info : TimerInfo) :
    ∀ ls : List TimerEventListener, ls.all (listenerOk event info) = true →
      emitEvent ls event info = (List.replicate ls.length (event, info), none)
  | [], _ => rfl
  | f :: rest, h => by
    simp only [List.all_cons, Bool.and_eq_true] at h
    rcases hf : f event info with e | u
    · exact absurd h.1 (by simp [listenerOk, hf])
    · simp [emitEvent, hf, emitEvent_all_ok event info rest h.2, List.replicate_succ]

/-- When the listeners before `l` return normally and `l` throws, the
emission loop invokes exactly the listeners up to and including `l` (each
with the snapshot) and the exception propagates out of the loop. -/
theorem emitEvent_stops_at_thrower (event : TimerEvent) (info : TimerInfo)
    (l : TimerEventListener) (ls₂ : List TimerEventListener) (msg : String)
    (hl : l event info = .error msg) :
    ∀ ls₁ : List TimerEventListener, ls₁.all (listenerOk event info) = true →
      emitEvent (ls₁ ++ l :: ls₂) event info =
        (List.replicate (ls₁.length + 1) (event, info), some msg)
  | [], _ => by simp [emitEvent, hl]
  | f :: rest, h => by
    simp only [List.all_cons, Bool.and_eq_true] at h
    rcases hf : f event info with e | u
    · exact absurd h.1 (by simp [listenerOk, hf])
    · have ih := emitEvent_stops_at_thrower event info l ls₂ msg hl rest h.2
      simp only [List.cons_append, emitEvent, hf, List.append_eq, ih, List.length_cons,
        List.replicate_succ]

/-- C3 counterexample: with two registered listeners of which the first
throws, the emission loop performs exactly one invocation — the
later-registered listener is NOT invoked, because listener invocations are
not guarded independently (no try/catch in the `for` loop). -/
theorem emitEvent_throwing_listener_cex :
    (emitEvent [fun _ _ => Except.error "boom", fun _ _ => Except.ok ()] .tick
        ⟨.running, .work, 1500, 10, 0, some 1⟩).fst.length = 1 ∧
    ([fun _ _ => Except.error "boom", fun _ _ => Except.ok ()] :
        List TimerEventListener).length = 2 ∧
    (emitEvent [fun _ _ => Except.error "boom", fun _ _ => Except.ok ()] .tick
        ⟨.running, .work, 1500, 10, 0, some 1⟩).snd = some "boom" :=
  ⟨rfl, rfl, rfl⟩

/-- C3 amended: event emission invokes the registered listeners in
registration order, synchronously, each with the current snapshot; when no
listener throws, every registered listener is invoked, but the invocations
are NOT independently guarded: if a listener throws, the listeners
registered before it and the thrower itself are the only ones invoked, and
the exception propagates out of the emission loop. -/
theorem emitEvent_delivery_amended (ls ls₁ ls₂ : List TimerEventListener)
    (l : TimerEventListener) (event : TimerEvent) (info : TimerInfo) (msg : String)
    (hok : ls.all (listenerOk event info) = true)
    (h1 : ls₁.all (listenerOk event info) = true)
    (hl : l event info = .error msg) :
    emitEvent ls event info = (List.replicate ls.length (event, info), none) ∧
    emitEvent (ls₁ ++ l :: ls₂) event info =
      (List.replicate (ls₁.length + 1) (event, info), some msg) :=
  ⟨emitEvent_all_ok event info ls hok,
   emitEvent_stops_at_thrower event info l ls₂ msg hl ls₁ h1⟩

/-- Witness for C3 amended: two well-behaved listeners are both invoked
with the snapshot; with a thrower registered between two well-behaved
listeners, exactly the first two invocations happen and `"boom"`
propagates. -/
theorem emitEvent_delivery_amended_witness :
    ([fun _ _ => Except.ok (), fun _ _ => Except.ok ()] :
        List TimerEventListener).all
      (listenerOk .tick ⟨.running, .work, 1500, 10, 0, some 1⟩) = true ∧
    ([fun _ _ => Except.ok ()] : List TimerEventListener).all
      (listenerOk .tick ⟨.running, .work, 1500, 10, 0, some 1⟩) = true ∧
    ((fun _ _ => Except.error "boom" : TimerEventListener) .tick
        ⟨.running, .work, 1500, 10, 0, some 1⟩ = .error "boom") ∧
    (emitEvent [fun _ _ => Except.ok (), fun _ _ => Except.ok ()] .tick
        ⟨.running, .work, 1500, 10, 0, some 1⟩ =
      (List.replicate 2 (.tick, ⟨.running, .work, 1500, 10, 0, some 1⟩), none) ∧
     emitEvent
        ([fun _ _ => Except.ok ()] ++ (fun _ _ => Except.error "boom") ::
          [fun _ _ => Except.ok ()]) .tick
        ⟨.running, .work, 1500, 10, 0, some 1⟩ =
      (List.replicate 2 (.tick, ⟨.running, .work, 1500, 10, 0, some 1⟩), some "boom")) :=
  ⟨rfl, rfl, rfl,
   emitEvent_delivery_amended
    [fun _ _ => Except.ok (), fun _ _ => Except.ok ()]
    [fun _ _ => Except.ok ()] [fun _ _ => Except.ok ()]
    (fun _ _ => Except.error "boom") .tick ⟨.running, .work, 1500, 10, 0, some 1⟩
    "boom" rfl rfl rfl⟩

/-- C4 counterexample: a URL starting with `chrome-extension://` that
contains the hostname of an active blocked site is NOT blocked even during
an active work session — `isBlocked` exempts extension pages before
consulting the block list, so "blocked exactly when work-active and the
URL contains an active blocked hostname" fails. -/
theorem blocked_extension_url_cex :
    strIncludes "chrome-extension://abc/facebook.com" "facebook.com" = true ∧
    urlHostname? "https://facebook.com" = some "facebook.com" ∧
    workSessionActive (some ⟨.work, true⟩) = true ∧
    handleTabUpdateBlocks (workSessionActive (some ⟨.work, true⟩))
      [⟨1, "https://facebook.com", true⟩] "chrome-extension://abc/facebook.com" =
      .ok false :=
  ⟨by decide, by decide, rfl, rfl⟩

/-- C4 amended: provided every active blocked site's URL has a parsable
hostname, a visited URL is blocked exactly when a work session is active,
the URL does not start with `chrome-extension://` (extension pages are
never blocked), and the URL string contains the hostname of some active
blocked site (substring match); in particular
`"https://sub.facebook.com/feed"` with blocked site
`{url:"https://facebook.com", isActive:true}` is blocked during an active
work session and not blocked during a break session. -/
theorem blocked_decision_amended (sites : List BlockedSite) (url : String)
    (session : Option CurrentSession)
    (h : sites.all (fun site => !site.isActive || (urlHostname? site.url).isSome) = true) :
    handleTabUpdateBlocks (workSessionActive session) sites url =
      .ok (workSessionActive session
        && !(strStartsWith url "chrome-extension://")
        && sites.any (fun site =>
            site.isActive && strIncludes url ((urlHostname? site.url).getD ""))) ∧
    handleTabUpdateBlocks (workSessionActive (some ⟨.work, true⟩))
      [⟨1, "https://facebook.com", true⟩] "https://sub.facebook.com/feed" = .ok true ∧
    handleTabUpdateBlocks (workSessionActive (some ⟨.shortBreak, true⟩))
      [⟨1, "https://facebook.com", true⟩] "https://sub.facebook.com/feed" = .ok false := by
  refine ⟨?_, rfl, rfl⟩
  by_cases hw : workSessionActive session
  · by_cases hx : strStartsWith url "chrome-extension://"
    · simp [handleTabUpdateBlocks, isBlocked, hw, hx]
    · simp only [handleTabUpdateBlocks, isBlocked, hw, hx, ite_true, ite_false,
        Bool.not_false, Bool.true_and]
      exact isBlockedScan_eq url sites h
  · simp [handleTabUpdateBlocks, hw]

/-- Witness for C4 amended: the facebook block-list entry parses, and the
decision procedure agrees with the substring formula on the example URL
during a work session. -/
theorem blocked_decision_amended_witness :
    ([⟨1, "https://facebook.com", true⟩] : List BlockedSite).all
      (fun site => !site.isActive || (urlHostname? site.url).isSome) = true ∧
    (handleTabUpdateBlocks (workSessionActive (some ⟨.work, true⟩))
        [⟨1, "https://facebook.com", true⟩] "https://sub.facebook.com/feed" =
      .ok (workSessionActive (some ⟨.work, true⟩)
        && !(strStartsWith "https://sub.facebook.com/feed" "chrome-extension://")
        && ([⟨1, "https://facebook.com", true⟩] : List BlockedSite).any (fun site =>
            site.isActive &&
              strIncludes "https://sub.facebook.com/feed"
                ((urlHostname? site.url).getD ""))) ∧
     handleTabUpdateBlocks (workSessionActive (some ⟨.work, true⟩))
        [⟨1, "https://facebook.com", true⟩] "https://sub.facebook.com/feed" = .ok true ∧
     handleTabUpdateBlocks (workSessionActive (some ⟨.shortBreak, true⟩))
        [⟨1, "https://facebook.com", true⟩] "https://sub.facebook.com/feed" = .ok false) :=
  ⟨by decide,
   blocked_decision_amended [⟨1, "https://facebook.com", true⟩]
     "https://sub.facebook.com/feed" (some ⟨.work, true⟩) (by decide)⟩

end FocusBooster
